import Mathlib

/-!
Shallow embedding of the `orbits` particle simulation (src/src/main.rs).

The `f64` values of the source are modelled as real numbers.  The source's
random number generator (`ThreadRng`) is modelled as an oracle `draws : ℕ → ℝ`
of values in `[0,1)`: `rng.gen_range(lo..hi)` on the n-th draw of a tick
becomes `gen_range lo hi (draws n)`, and the draws of one `update` call are
consumed in source order (spawn chance, colour r/g/b, x, y, angle).

`App::update` is embedded compositionally, following the source exactly:
optional spawn (`spawnSat`), then one pass over the satellites doing velocity
integration, position integration and trail maintenance (`moveSat`, whose
gravity part is `integrateSat` folding `applyGravity` over the planet list),
then a second pass setting the `dead` flag (`markDead`), then
`Vec::retain` (`retainSats`).  `tickSat` is the per-satellite composition of
the two passes.
-/

namespace Orbits

open Classical

/-- `Planet` from the source: a static attractor.  The colour is opaque to the
simulation core and carried along unchanged. -/
structure Planet where
  color : ℝ × ℝ × ℝ × ℝ
  mass : ℝ
  radius : ℝ
  x : ℝ
  y : ℝ

/-- `Satellite` from the source.  The `VecDeque` trail is a list whose head is
the oldest entry (`push_back` appends, `pop_front` drops the head). -/
structure Satellite where
  color : ℝ × ℝ × ℝ × ℝ
  radius : ℝ
  dead : Prop
  x : ℝ
  y : ℝ
  v_x : ℝ
  v_y : ℝ
  trail : List (ℝ × ℝ)

/-- `Args` from the source (the window title is irrelevant to the core and
omitted). -/
structure Args where
  width : ℝ
  height : ℝ
  add_chance : ℝ
  sat_radius : ℝ
  sat_velocity : ℝ
  gravity_constant : ℝ
  trail_length : ℕ

/-- The simulation-relevant state of `App` (the GL handle and fps counter are
presentation-only). -/
structure App where
  planets : List Planet
  satellites : List Satellite
  args : Args

/-- `fn outside` from the source: true when the body of radius `radius` at
`(x, y)` is entirely beyond one of the four window edges. -/
def outside (x y radius width height : ℝ) : Prop :=
  (x + radius < 0) ∨ (y + radius < 0) ∨ (x - radius > width) ∨ (y - radius > height)

/-- Rust's `f64::atan2` (`self.atan2(other)` computes `atan2 y x`), in its
standard real-valued definition by quadrant. -/
noncomputable def atan2 (y x : ℝ) : ℝ :=
  if 0 < x then Real.arctan (y / x)
  else if x < 0 then
    (if 0 ≤ y then Real.arctan (y / x) + Real.pi else Real.arctan (y / x) - Real.pi)
  else
    (if 0 < y then Real.pi / 2 else if y < 0 then -(Real.pi / 2) else 0)

/-- `rng.gen_range(lo..hi)` given the oracle value `u ∈ [0,1)` for this draw. -/
def gen_range (lo hi u : ℝ) : ℝ := lo + (hi - lo) * u

/-- `fn random_color`: three `gen_range(0.0..1.0)` draws and alpha 1. -/
def random_color (u1 u2 u3 : ℝ) : ℝ × ℝ × ℝ × ℝ :=
  (gen_range 0 1 u1, gen_range 0 1 u2, gen_range 0 1 u3, 1)

/-- The body of the inner planet loop of `App::update`: one planet's
gravitational impulse applied to a satellite's velocity. -/
noncomputable def applyGravity (gravity_constant dt : ℝ) (planet : Planet)
    (sat : Satellite) : Satellite :=
  let distance_x := sat.x - planet.x
  let distance_y := sat.y - planet.y
  let distance_sq := distance_x * distance_x + distance_y * distance_y
  let delta_velocity := gravity_constant * planet.mass * dt / distance_sq
  let angle := atan2 distance_y distance_x
  { sat with
    v_x := sat.v_x + -1 * delta_velocity * Real.cos angle
    v_y := sat.v_y + -1 * delta_velocity * Real.sin angle }

/-- The integration part of the first satellite loop of `App::update`:
accumulate every planet's impulse, then translate the position by the updated
velocity. -/
noncomputable def integrateSat (args : Args) (planets : List Planet) (dt : ℝ)
    (sat : Satellite) : Satellite :=
  let s := planets.foldl (fun s planet => applyGravity args.gravity_constant dt planet s) sat
  { s with x := s.x + s.v_x * dt, y := s.y + s.v_y * dt }

/-- The whole body of the first satellite loop of `App::update`: integration
followed by trail maintenance (`push_back` of the new position when alive,
`pop_front` when over the cap or dead; `pop_front` of an empty deque is a
no-op, matching `List.tail`). -/
noncomputable def moveSat (args : Args) (planets : List Planet) (dt : ℝ)
    (sat : Satellite) : Satellite :=
  let s1 := integrateSat args planets dt sat
  let s2 := if ¬ s1.dead then { s1 with trail := s1.trail ++ [(s1.x, s1.y)] } else s1
  if s2.trail.length > args.trail_length ∨ s2.dead then { s2 with trail := s2.trail.tail } else s2

/-- The body of the second satellite loop of `App::update`: or the `dead` flag
with the boundary-exit test and the any-planet collision test. -/
noncomputable def markDead (args : Args) (planets : List Planet)
    (sat : Satellite) : Satellite :=
  { sat with
    dead := sat.dead ∨ outside sat.x sat.y sat.radius args.width args.height ∨
      ∃ planet ∈ planets,
        Real.sqrt ((sat.x - planet.x) * (sat.x - planet.x) +
          (sat.y - planet.y) * (sat.y - planet.y)) < sat.radius + planet.radius }

/-- One tick's whole effect on a single satellite: first loop then second
loop. -/
noncomputable def tickSat (args : Args) (planets : List Planet) (dt : ℝ)
    (sat : Satellite) : Satellite :=
  markDead args planets (moveSat args planets dt sat)

/-- The predicate of `self.satellites.retain(|sat| !sat.dead | (sat.trail.len() > 0))`. -/
def keepSat (sat : Satellite) : Prop := ¬ sat.dead ∨ sat.trail.length > 0

/-- `Vec::retain` with the source's predicate: keep, in order, the satellites
that are alive or still have trail entries. -/
noncomputable def retainSats : List Satellite → List Satellite
  | [] => []
  | sat :: rest => if keepSat sat then sat :: retainSats rest else retainSats rest

/-- The satellite built by the spawn branch of `App::update`, from the tick's
oracle draws (draw 0 is the spawn chance, 1–3 the colour, 4 the x position,
5 the y position, 6 the heading). -/
noncomputable def spawnSat (args : Args) (draws : ℕ → ℝ) : Satellite :=
  let color := random_color (draws 1) (draws 2) (draws 3)
  let x := gen_range 0 args.width (draws 4)
  let y := gen_range 0 args.height (draws 5)
  let angle := gen_range 0 (2 * Real.pi) (draws 6)
  { color := color
    radius := args.sat_radius
    dead := False
    x := x
    y := y
    v_x := args.sat_velocity * Real.cos angle
    v_y := args.sat_velocity * Real.sin angle
    trail := [] }

/-- `App::update`: optional spawn, first satellite loop (integration and
trail), second satellite loop (death flag), then retain. -/
noncomputable def update (app : App) (dt : ℝ) (draws : ℕ → ℝ) : App :=
  let c := gen_range 0 1 (draws 0)
  let sats :=
    if c < app.args.add_chance then app.satellites ++ [spawnSat app.args draws]
    else app.satellites
  let sats := sats.map (moveSat app.args app.planets dt)
  let sats := sats.map (markDead app.args app.planets)
  { app with satellites := retainSats sats }

/-- Iterated ticks: fold `update` over a list of `(dt, draws)` inputs. -/
noncomputable def runUpdates (app : App) : List (ℝ × (ℕ → ℝ)) → App
  | [] => app
  | t :: ts => runUpdates (update app t.1 t.2) ts

/-- The spec's notion of the body lying entirely outside the viewport
rectangle `[0,width] × [0,height]` (stated for comparison with the source's
`outside`): every point of the rectangle is at distance greater than `radius`
from the centre. -/
def specBodyOutsideRect (x y radius width height : ℝ) : Prop :=
  ∀ px py : ℝ, 0 ≤ px → px ≤ width → 0 ≤ py → py ≤ height →
    radius * radius < (x - px) * (x - px) + (y - py) * (y - py)

/-- The default configuration built in `main` for an 800×800 window. -/
noncomputable def defaultArgs : Args :=
  { width := 800
    height := 800
    add_chance := 0.01
    sat_radius := 5
    sat_velocity := 200
    gravity_constant := 4000
    trail_length := 100 }

/-- An opaque colour value for concrete states. -/
def c0 : ℝ × ℝ × ℝ × ℝ := (1, 1, 1, 1)

/-- The single planet `main` creates for `num_planets == 1` on an 800×800
window. -/
def planet0 : Planet := { color := c0, mass := 1000, radius := 25, x := 400, y := 400 }

/-- A dead satellite at rest on the axis right of the planet, with two trail
entries. -/
def satD : Satellite :=
  { color := c0, radius := 5, dead := True, x := 500, y := 400,
    v_x := 0, v_y := 0, trail := [(0, 0), (1, 1)] }

/-- A live satellite at rest on the axis right of the planet, empty trail. -/
def satA : Satellite :=
  { color := c0, radius := 5, dead := False, x := 500, y := 400,
    v_x := 0, v_y := 0, trail := [] }

/-- A live satellite moving right fast enough to leave the window in one
tick. -/
def satB : Satellite :=
  { color := c0, radius := 5, dead := False, x := 500, y := 400,
    v_x := 10000, v_y := 0, trail := [] }

/-- A live satellite whose post-integration position `(804, 804)` is fully
outside the viewport rectangle but not fully beyond any single edge. -/
def satX3 : Satellite :=
  { color := c0, radius := 5, dead := False, x := 2400, y := 400,
    v_x := -1595, v_y := 404, trail := [] }

/-- A live satellite that ends the tick at `(386, 400)`, overlapping the
planet. -/
def satW7 : Satellite :=
  { color := c0, radius := 5, dead := False, x := 650, y := 400,
    v_x := -200, v_y := 0, trail := [] }

/-- A live satellite overlapping the planet before the tick but moving fast
enough to end the tick at `(700, 400)`, clear of it and inside the window. -/
def satW7pre : Satellite :=
  { color := c0, radius := 5, dead := False, x := 410, y := 400,
    v_x := 40290, v_y := 0, trail := [] }

/-- The freshly initialised app: one planet, no satellites. -/
noncomputable def app0 : App :=
  { planets := [planet0], satellites := [], args := defaultArgs }

/-- The app holding the single live satellite `satA`. -/
noncomputable def app4 : App :=
  { planets := [planet0], satellites := [satA], args := defaultArgs }

/-! ### Field bookkeeping lemmas -/

lemma applyGravity_x (G dt : ℝ) (p : Planet) (s : Satellite) :
    (applyGravity G dt p s).x = s.x := rfl

lemma applyGravity_y (G dt : ℝ) (p : Planet) (s : Satellite) :
    (applyGravity G dt p s).y = s.y := rfl

lemma applyGravity_dead (G dt : ℝ) (p : Planet) (s : Satellite) :
    (applyGravity G dt p s).dead = s.dead := rfl

lemma applyGravity_radius (G dt : ℝ) (p : Planet) (s : Satellite) :
    (applyGravity G dt p s).radius = s.radius := rfl

lemma applyGravity_trail (G dt : ℝ) (p : Planet) (s : Satellite) :
    (applyGravity G dt p s).trail = s.trail := rfl

lemma foldl_applyGravity_x (G dt : ℝ) :
    ∀ (l : List Planet) (s : Satellite),
      (l.foldl (fun s planet => applyGravity G dt planet s) s).x = s.x
  | [], _ => rfl
  | p :: l, s => (foldl_applyGravity_x G dt l (applyGravity G dt p s)).trans rfl

lemma foldl_applyGravity_y (G dt : ℝ) :
    ∀ (l : List Planet) (s : Satellite),
      (l.foldl (fun s planet => applyGravity G dt planet s) s).y = s.y
  | [], _ => rfl
  | p :: l, s => (foldl_applyGravity_y G dt l (applyGravity G dt p s)).trans rfl

lemma foldl_applyGravity_dead (G dt : ℝ) :
    ∀ (l : List Planet) (s : Satellite),
      (l.foldl (fun s planet => applyGravity G dt planet s) s).dead = s.dead
  | [], _ => rfl
  | p :: l, s => (foldl_applyGravity_dead G dt l (applyGravity G dt p s)).trans rfl

lemma foldl_applyGravity_radius (G dt : ℝ) :
    ∀ (l : List Planet) (s : Satellite),
      (l.foldl (fun s planet => applyGravity G dt planet s) s).radius = s.radius
  | [], _ => rfl
  | p :: l, s => (foldl_applyGravity_radius G dt l (applyGravity G dt p s)).trans rfl

lemma foldl_applyGravity_trail (G dt : ℝ) :
    ∀ (l : List Planet) (s : Satellite),
      (l.foldl (fun s planet => applyGravity G dt planet s) s).trail = s.trail
  | [], _ => rfl
  | p :: l, s => (foldl_applyGravity_trail G dt l (applyGravity G dt p s)).trans rfl

lemma integrateSat_dead (args : Args) (planets : List Planet) (dt : ℝ) (s : Satellite) :
    (integrateSat args planets dt s).dead = s.dead :=
  foldl_applyGravity_dead args.gravity_constant dt planets s

lemma integrateSat_radius (args : Args) (planets : List Planet) (dt : ℝ) (s : Satellite) :
    (integrateSat args planets dt s).radius = s.radius :=
  foldl_applyGravity_radius args.gravity_constant dt planets s

lemma integrateSat_trail (args : Args) (planets : List Planet) (dt : ℝ) (s : Satellite) :
    (integrateSat args planets dt s).trail = s.trail :=
  foldl_applyGravity_trail args.gravity_constant dt planets s

lemma moveSat_x (args : Args) (planets : List Planet) (dt : ℝ) (s : Satellite) :
    (moveSat args planets dt s).x = (integrateSat args planets dt s).x := by
  simp only [moveSat]
  split_ifs <;> rfl

lemma moveSat_y (args : Args) (planets : List Planet) (dt : ℝ) (s : Satellite) :
    (moveSat args planets dt s).y = (integrateSat args planets dt s).y := by
  simp only [moveSat]
  split_ifs <;> rfl

lemma moveSat_v_x (args : Args) (planets : List Planet) (dt : ℝ) (s : Satellite) :
    (moveSat args planets dt s).v_x = (integrateSat args planets dt s).v_x := by
  simp only [moveSat]
  split_ifs <;> rfl

lemma moveSat_v_y (args : Args) (planets : List Planet) (dt : ℝ) (s : Satellite) :
    (moveSat args planets dt s).v_y = (integrateSat args planets dt s).v_y := by
  simp only [moveSat]
  split_ifs <;> rfl

lemma moveSat_radius (args : Args) (planets : List Planet) (dt : ℝ) (s : Satellite) :
    (moveSat args planets dt s).radius = s.radius := by
  simp only [moveSat]
  split_ifs <;> exact integrateSat_radius args planets dt s

lemma moveSat_dead (args : Args) (planets : List Planet) (dt : ℝ) (s : Satellite) :
    (moveSat args planets dt s).dead = s.dead := by
  simp only [moveSat]
  split_ifs <;> exact integrateSat_dead args planets dt s

lemma markDead_trail (args : Args) (planets : List Planet) (s : Satellite) :
    (markDead args planets s).trail = s.trail := rfl

lemma markDead_x (args : Args) (planets : List Planet) (s : Satellite) :
    (markDead args planets s).x = s.x := rfl

lemma markDead_y (args : Args) (planets : List Planet) (s : Satellite) :
    (markDead args planets s).y = s.y := rfl

lemma markDead_v_x (args : Args) (planets : List Planet) (s : Satellite) :
    (markDead args planets s).v_x = s.v_x := rfl

lemma markDead_v_y (args : Args) (planets : List Planet) (s : Satellite) :
    (markDead args planets s).v_y = s.v_y := rfl

lemma markDead_radius (args : Args) (planets : List Planet) (s : Satellite) :
    (markDead args planets s).radius = s.radius := rfl

lemma markDead_dead (args : Args) (planets : List Planet) (s : Satellite) :
    (markDead args planets s).dead =
      (s.dead ∨ outside s.x s.y s.radius args.width args.height ∨
        ∃ planet ∈ planets,
          Real.sqrt ((s.x - planet.x) * (s.x - planet.x) +
            (s.y - planet.y) * (s.y - planet.y)) < s.radius + planet.radius) := rfl

/-! ### Behaviour of one tick on a single satellite -/

lemma moveSat_of_dead (args : Args) (planets : List Planet) (dt : ℝ) (s : Satellite)
    (h : s.dead) :
    moveSat args planets dt s =
      { integrateSat args planets dt s with trail := s.trail.tail } := by
  have hdead : (integrateSat args planets dt s).dead := by
    rw [integrateSat_dead]; exact h
  simp only [moveSat]
  rw [if_neg (not_not_intro hdead), if_pos (Or.inr hdead), integrateSat_trail]

lemma moveSat_of_alive (args : Args) (planets : List Planet) (dt : ℝ) (s : Satellite)
    (h : ¬ s.dead) :
    moveSat args planets dt s =
      (if s.trail.length + 1 > args.trail_length then
        { integrateSat args planets dt s with
            trail := (s.trail ++ [((integrateSat args planets dt s).x,
              (integrateSat args planets dt s).y)]).tail }
      else
        { integrateSat args planets dt s with
            trail := s.trail ++ [((integrateSat args planets dt s).x,
              (integrateSat args planets dt s).y)] }) := by
  have halive : ¬ (integrateSat args planets dt s).dead := by
    rw [integrateSat_dead]; exact h
  have htr := integrateSat_trail args planets dt s
  simp only [moveSat]
  rw [if_pos halive]
  simp only [List.length_append, List.length_singleton, htr]
  split_ifs <;> first | rfl | tauto

lemma tickSat_trail_of_alive_under_cap (args : Args) (planets : List Planet) (dt : ℝ)
    (s : Satellite) (h : ¬ s.dead) (hlen : s.trail.length < args.trail_length) :
    (tickSat args planets dt s).trail =
      s.trail ++ [((integrateSat args planets dt s).x, (integrateSat args planets dt s).y)] := by
  rw [tickSat, markDead_trail, moveSat_of_alive args planets dt s h,
    if_neg (by omega)]

lemma tickSat_dead_of_dead (args : Args) (planets : List Planet) (dt : ℝ)
    (s : Satellite) (h : s.dead) : (tickSat args planets dt s).dead := by
  rw [tickSat, markDead_dead]
  left
  rw [moveSat_dead]
  exact h

lemma tickSat_trail_of_dead (args : Args) (planets : List Planet) (dt : ℝ)
    (s : Satellite) (h : s.dead) :
    (tickSat args planets dt s).trail = s.trail.tail := by
  rw [tickSat, markDead_trail, moveSat_of_dead args planets dt s h]

lemma tickSat_trail_length_le (args : Args) (planets : List Planet) (dt : ℝ)
    (s : Satellite) (h : s.trail.length ≤ args.trail_length) :
    (tickSat args planets dt s).trail.length ≤ args.trail_length := by
  by_cases hd : s.dead
  · rw [tickSat_trail_of_dead args planets dt s hd]
    calc s.trail.tail.length ≤ s.trail.length := by
          rw [List.length_tail]; omega
      _ ≤ args.trail_length := h
  · rw [tickSat, markDead_trail, moveSat_of_alive args planets dt s hd]
    by_cases hlen : s.trail.length + 1 > args.trail_length
    · rw [if_pos hlen]
      simp only [List.length_tail, List.length_append, List.length_singleton]
      omega
    · rw [if_neg hlen]
      simp only [List.length_append, List.length_singleton]
      omega

/-! ### Retain and the shape of `update` -/

lemma retainSats_mem (s : Satellite) :
    ∀ l : List Satellite, s ∈ retainSats l ↔ s ∈ l ∧ keepSat s
  | [] => by simp [retainSats]
  | a :: l => by
    by_cases h : keepSat a
    · rw [retainSats, if_pos h]
      simp only [List.mem_cons, retainSats_mem s l]
      constructor
      · rintro (rfl | ⟨hm, hk⟩)
        · exact ⟨Or.inl rfl, h⟩
        · exact ⟨Or.inr hm, hk⟩
      · rintro ⟨rfl | hm, hk⟩
        · exact Or.inl rfl
        · exact Or.inr ⟨hm, hk⟩
    · rw [retainSats, if_neg h]
      simp only [List.mem_cons, retainSats_mem s l]
      constructor
      · rintro ⟨hm, hk⟩
        exact ⟨Or.inr hm, hk⟩
      · rintro ⟨rfl | hm, hk⟩
        · exact absurd hk h
        · exact ⟨hm, hk⟩

lemma update_satellites_eq (app : App) (dt : ℝ) (draws : ℕ → ℝ) :
    (update app dt draws).satellites =
      retainSats (List.map (tickSat app.args app.planets dt)
        (if gen_range 0 1 (draws 0) < app.args.add_chance then
          app.satellites ++ [spawnSat app.args draws]
        else app.satellites)) := by
  simp only [update, List.map_map]
  rfl

lemma update_args_eq (app : App) (dt : ℝ) (draws : ℕ → ℝ) :
    (update app dt draws).args = app.args := rfl

lemma update_planets_eq (app : App) (dt : ℝ) (draws : ℕ → ℝ) :
    (update app dt draws).planets = app.planets := rfl

/-! ### Exact evaluation of the physics on the axis through a planet -/

lemma atan2_zero_of_pos (x : ℝ) (hx : 0 < x) : atan2 0 x = 0 := by
  rw [atan2, if_pos hx, zero_div, Real.arctan_zero]

lemma applyGravity_horizontal_v_x (G dt : ℝ) (p : Planet) (s : Satellite)
    (hy : s.y = p.y) (hx : p.x < s.x) :
    (applyGravity G dt p s).v_x =
      s.v_x - G * p.mass * dt / ((s.x - p.x) * (s.x - p.x)) := by
  have hdy : s.y - p.y = 0 := by rw [hy, sub_self]
  have hdx : 0 < s.x - p.x := sub_pos.mpr hx
  simp only [applyGravity, hdy, atan2_zero_of_pos (s.x - p.x) hdx, Real.cos_zero,
    mul_zero, add_zero, mul_one]
  ring

lemma applyGravity_horizontal_v_y (G dt : ℝ) (p : Planet) (s : Satellite)
    (hy : s.y = p.y) (hx : p.x < s.x) :
    (applyGravity G dt p s).v_y = s.v_y := by
  have hdy : s.y - p.y = 0 := by rw [hy, sub_self]
  have hdx : 0 < s.x - p.x := sub_pos.mpr hx
  simp only [applyGravity, hdy, atan2_zero_of_pos (s.x - p.x) hdx, Real.sin_zero,
    mul_zero, add_zero]

lemma integrateSat_horizontal (args : Args) (p : Planet) (dt : ℝ) (s : Satellite)
    (hy : s.y = p.y) (hx : p.x < s.x) :
    (integrateSat args [p] dt s).v_x =
        s.v_x - args.gravity_constant * p.mass * dt / ((s.x - p.x) * (s.x - p.x)) ∧
      (integrateSat args [p] dt s).v_y = s.v_y ∧
      (integrateSat args [p] dt s).x =
        s.x + (s.v_x - args.gravity_constant * p.mass * dt / ((s.x - p.x) * (s.x - p.x))) * dt ∧
      (integrateSat args [p] dt s).y = s.y + s.v_y * dt := by
  have h1 := applyGravity_horizontal_v_x args.gravity_constant dt p s hy hx
  have h2 := applyGravity_horizontal_v_y args.gravity_constant dt p s hy hx
  refine ⟨?_, ?_, ?_, ?_⟩ <;>
    simp only [integrateSat, List.foldl_cons, List.foldl_nil, h1, h2,
      applyGravity_x, applyGravity_y]

lemma le_sqrt_of_sq_le (b D : ℝ) (hb : 0 ≤ b) (h : b * b ≤ D) : b ≤ Real.sqrt D := by
  calc b = Real.sqrt (b * b) := (Real.sqrt_mul_self hb).symm
    _ ≤ Real.sqrt D := Real.sqrt_le_sqrt h

lemma integrate_satD :
    (integrateSat defaultArgs [planet0] 1 satD).v_x = -400 ∧
      (integrateSat defaultArgs [planet0] 1 satD).x = 100 ∧
      (integrateSat defaultArgs [planet0] 1 satD).y = 400 := by
  have h := integrateSat_horizontal defaultArgs planet0 1 satD
    (by norm_num [satD, planet0]) (by norm_num [satD, planet0])
  refine ⟨?_, ?_, ?_⟩
  · rw [h.1]; norm_num [satD, planet0, defaultArgs]
  · rw [h.2.2.1]; norm_num [satD, planet0, defaultArgs]
  · rw [h.2.2.2]; norm_num [satD, planet0]

lemma integrate_satA :
    (integrateSat defaultArgs [planet0] 1 satA).x = 100 ∧
      (integrateSat defaultArgs [planet0] 1 satA).y = 400 := by
  have h := integrateSat_horizontal defaultArgs planet0 1 satA
    (by norm_num [satA, planet0]) (by norm_num [satA, planet0])
  refine ⟨?_, ?_⟩
  · rw [h.2.2.1]; norm_num [satA, planet0, defaultArgs]
  · rw [h.2.2.2]; norm_num [satA, planet0]

lemma integrate_satB :
    (integrateSat defaultArgs [planet0] 1 satB).x = 10100 ∧
      (integrateSat defaultArgs [planet0] 1 satB).y = 400 := by
  have h := integrateSat_horizontal defaultArgs planet0 1 satB
    (by norm_num [satB, planet0]) (by norm_num [satB, planet0])
  refine ⟨?_, ?_⟩
  · rw [h.2.2.1]; norm_num [satB, planet0, defaultArgs]
  · rw [h.2.2.2]; norm_num [satB, planet0]

lemma integrate_satX3 :
    (integrateSat defaultArgs [planet0] 1 satX3).x = 804 ∧
      (integrateSat defaultArgs [planet0] 1 satX3).y = 804 := by
  have h := integrateSat_horizontal defaultArgs planet0 1 satX3
    (by norm_num [satX3, planet0]) (by norm_num [satX3, planet0])
  refine ⟨?_, ?_⟩
  · rw [h.2.2.1]; norm_num [satX3, planet0, defaultArgs]
  · rw [h.2.2.2]; norm_num [satX3, planet0]

lemma integrate_satW7 :
    (integrateSat defaultArgs [planet0] 1 satW7).x = 386 ∧
      (integrateSat defaultArgs [planet0] 1 satW7).y = 400 := by
  have h := integrateSat_horizontal defaultArgs planet0 1 satW7
    (by norm_num [satW7, planet0]) (by norm_num [satW7, planet0])
  refine ⟨?_, ?_⟩
  · rw [h.2.2.1]; norm_num [satW7, planet0, defaultArgs]
  · rw [h.2.2.2]; norm_num [satW7, planet0]

lemma integrate_satW7pre :
    (integrateSat defaultArgs [planet0] 1 satW7pre).x = 700 ∧
      (integrateSat defaultArgs [planet0] 1 satW7pre).y = 400 := by
  have h := integrateSat_horizontal defaultArgs planet0 1 satW7pre
    (by norm_num [satW7pre, planet0]) (by norm_num [satW7pre, planet0])
  refine ⟨?_, ?_⟩
  · rw [h.2.2.1]; norm_num [satW7pre, planet0, defaultArgs]
  · rw [h.2.2.2]; norm_num [satW7pre, planet0]

/-! ### Trail-bound preservation helpers -/

lemma update_preserves_trail_bound (app : App) (dt : ℝ) (draws : ℕ → ℝ)
    (h : ∀ s ∈ app.satellites, s.trail.length ≤ app.args.trail_length) :
    ∀ s ∈ (update app dt draws).satellites,
      s.trail.length ≤ app.args.trail_length := by
  intro s hs
  rw [update_satellites_eq] at hs
  obtain ⟨hmem, -⟩ := (retainSats_mem s _).mp hs
  obtain ⟨t, ht, rfl⟩ := List.mem_map.mp hmem
  apply tickSat_trail_length_le
  by_cases hc : gen_range 0 1 (draws 0) < app.args.add_chance
  · rw [if_pos hc] at ht
    rcases List.mem_append.mp ht with ht | ht
    · exact h t ht
    · rw [List.mem_singleton] at ht
      subst ht
      simp [spawnSat]
  · rw [if_neg hc] at ht
    exact h t ht

lemma runUpdates_args (app : App) :
    ∀ ticks : List (ℝ × (ℕ → ℝ)), (runUpdates app ticks).args = app.args
  | [] => rfl
  | t :: ts => (runUpdates_args (update app t.1 t.2) ts).trans (update_args_eq app t.1 t.2)

lemma runUpdates_trail_bound (ticks : List (ℝ × (ℕ → ℝ))) :
    ∀ app : App, (∀ s ∈ app.satellites, s.trail.length ≤ app.args.trail_length) →
      ∀ s ∈ (runUpdates app ticks).satellites,
        s.trail.length ≤ (runUpdates app ticks).args.trail_length := by
  induction ticks with
  | nil => exact fun app h => h
  | cons t ts ih =>
    intro app h
    rw [runUpdates]
    apply ih (update app t.1 t.2)
    intro s hs
    rw [update_args_eq]
    exact update_preserves_trail_bound app t.1 t.2 h s hs

/-! ### The claims -/

/-- C1 counterexample: it is NOT true that an `update` tick leaves a dead
satellite's position and velocity unchanged.  The source's first loop
integrates every satellite, dead or not (`tickSat` is the per-satellite
effect `update` maps over the collection): at the dead resting satellite
`satD` the tick changes `v_x` from 0 to −400. -/
theorem dead_freeze_cex :
    ¬ ∀ (args : Args) (planets : List Planet) (dt : ℝ) (s : Satellite),
        s.dead →
          (tickSat args planets dt s).x = s.x ∧ (tickSat args planets dt s).y = s.y ∧
            (tickSat args planets dt s).v_x = s.v_x ∧
            (tickSat args planets dt s).v_y = s.v_y := by
  intro hclaim
  have h := (hclaim defaultArgs [planet0] 1 satD trivial).2.2.1
  rw [tickSat, markDead_v_x, moveSat_v_x, integrate_satD.1] at h
  norm_num [satD] at h

/-- C1 amended: `update` applies force integration and position translation
to dead satellites exactly as to live ones (its per-satellite effect
`tickSat` carries the `integrateSat` position and velocity); for a dead
satellite the trail gets no append and one head eviction, and `dead` stays
true. -/
theorem dead_sat_integrates (args : Args) (planets : List Planet) (dt : ℝ)
    (s : Satellite) (h : s.dead) :
    (tickSat args planets dt s).x = (integrateSat args planets dt s).x ∧
      (tickSat args planets dt s).y = (integrateSat args planets dt s).y ∧
      (tickSat args planets dt s).v_x = (integrateSat args planets dt s).v_x ∧
      (tickSat args planets dt s).v_y = (integrateSat args planets dt s).v_y ∧
      (tickSat args planets dt s).trail = s.trail.tail ∧
      (tickSat args planets dt s).dead := by
  refine ⟨?_, ?_, ?_, ?_, tickSat_trail_of_dead args planets dt s h,
    tickSat_dead_of_dead args planets dt s h⟩
  · rw [tickSat, markDead_x, moveSat_x]
  · rw [tickSat, markDead_y, moveSat_y]
  · rw [tickSat, markDead_v_x, moveSat_v_x]
  · rw [tickSat, markDead_v_y, moveSat_v_y]

/-- Witness for `dead_sat_integrates` at the dead satellite `satD`. -/
theorem dead_sat_integrates_witness :
    (tickSat defaultArgs [planet0] 1 satD).x = (integrateSat defaultArgs [planet0] 1 satD).x ∧
      (tickSat defaultArgs [planet0] 1 satD).y = (integrateSat defaultArgs [planet0] 1 satD).y ∧
      (tickSat defaultArgs [planet0] 1 satD).v_x =
        (integrateSat defaultArgs [planet0] 1 satD).v_x ∧
      (tickSat defaultArgs [planet0] 1 satD).v_y =
        (integrateSat defaultArgs [planet0] 1 satD).v_y ∧
      (tickSat defaultArgs [planet0] 1 satD).trail = satD.trail.tail ∧
      (tickSat defaultArgs [planet0] 1 satD).dead :=
  dead_sat_integrates defaultArgs [planet0] 1 satD trivial

/-- C2 counterexample: it is NOT true that a satellite becoming dead on a
tick sees no net trail growth that tick.  The death check runs in the second
loop, after the first loop's trail step: `satB` is alive during the trail
step, pushes its new position, and only then is marked dead, so its trail
grows from 0 to 1 entries on the tick it dies. -/
theorem death_before_eviction_cex :
    ¬ ∀ (args : Args) (planets : List Planet) (dt : ℝ) (s : Satellite),
        ¬ s.dead → (tickSat args planets dt s).dead →
          (tickSat args planets dt s).trail.length ≤ s.trail.length := by
  intro hclaim
  have halive : ¬ satB.dead := fun h => h
  have hdead : (tickSat defaultArgs [planet0] 1 satB).dead := by
    rw [tickSat, markDead_dead]
    refine Or.inr (Or.inl ?_)
    rw [moveSat_x, moveSat_y, moveSat_radius, integrate_satB.1, integrate_satB.2]
    norm_num [outside, satB, defaultArgs]
  have hlen := hclaim defaultArgs [planet0] 1 satB halive hdead
  rw [tickSat_trail_of_alive_under_cap defaultArgs [planet0] 1 satB halive
    (by norm_num [satB, defaultArgs])] at hlen
  simp [satB] at hlen

/-- C2 amended: the death condition is evaluated after position integration
AND after the trail-maintenance step, not before it: the second loop
(`markDead`) never touches the trail, and a satellite alive at the start of
a tick with its trail under the cap appends one entry that tick — net trail
growth of one even on the tick it becomes dead. -/
theorem death_after_trail_step (args : Args) (planets : List Planet) (dt : ℝ)
    (s : Satellite) (h : ¬ s.dead) (hlen : s.trail.length < args.trail_length) :
    (tickSat args planets dt s).trail.length = s.trail.length + 1 ∧
      ∀ t : Satellite, (markDead args planets t).trail = t.trail := by
  refine ⟨?_, fun t => markDead_trail args planets t⟩
  rw [tickSat_trail_of_alive_under_cap args planets dt s h hlen]
  simp

/-- Witness for `death_after_trail_step` at the live satellite `satA`. -/
theorem death_after_trail_step_witness :
    (tickSat defaultArgs [planet0] 1 satA).trail.length = satA.trail.length + 1 :=
  (death_after_trail_step defaultArgs [planet0] 1 satA (fun h => h)
    (by norm_num [satA, defaultArgs])).1

/-- C5: at the end of every `update` the collection is exactly the retained
processed list, and a satellite is kept by the retain pass precisely when it
is alive or still has trail entries — so removal happens exactly for
`dead ∧ trail empty`. -/
theorem removal_iff_dead_and_empty (app : App) (dt : ℝ) (draws : ℕ → ℝ)
    (l : List Satellite) (s : Satellite) :
    (update app dt draws).satellites =
        retainSats (List.map (tickSat app.args app.planets dt)
          (if gen_range 0 1 (draws 0) < app.args.add_chance then
            app.satellites ++ [spawnSat app.args draws]
          else app.satellites)) ∧
      (s ∈ retainSats l ↔ s ∈ l ∧ (¬ s.dead ∨ s.trail.length > 0)) :=
  ⟨update_satellites_eq app dt draws, retainSats_mem s l⟩

/-- C6: a dead satellite is drained one trail entry per tick with no
appends, stays dead, and satisfies the retain predicate exactly while fewer
ticks have elapsed than its starting trail length — so it is purged by the
`update` on which the trail empties, after exactly `trail.length` further
ticks. -/
theorem eventual_removal (args : Args) (planets : List Planet) (dts : List ℝ)
    (s : Satellite) (h : s.dead) :
    (List.foldl (fun t dt => tickSat args planets dt t) s dts).trail.length
        = s.trail.length - dts.length ∧
      (List.foldl (fun t dt => tickSat args planets dt t) s dts).dead ∧
      (keepSat (List.foldl (fun t dt => tickSat args planets dt t) s dts) ↔
        dts.length < s.trail.length) := by
  induction dts generalizing s with
  | nil =>
    refine ⟨by simp, h, ?_⟩
    rw [keepSat]
    constructor
    · rintro (hk | hk)
      · exact absurd h hk
      · simpa using hk
    · intro hk
      right
      simpa using hk
  | cons d ds ih =>
    have hd' := tickSat_dead_of_dead args planets d s h
    have htr := tickSat_trail_of_dead args planets d s h
    obtain ⟨l1, l2, l3⟩ := ih (tickSat args planets d s) hd'
    rw [List.foldl_cons]
    refine ⟨?_, l2, ?_⟩
    · rw [l1, htr, List.length_tail, List.length_cons]
      omega
    · rw [l3, htr, List.length_tail, List.length_cons]
      omega

/-- Witness for `eventual_removal`: `satD` is dead with a 2-entry trail;
after the one-tick sequence `[1]` it has one entry left and is still
retained. -/
theorem eventual_removal_witness :
    satD.dead ∧
      ((List.foldl (fun t dt => tickSat defaultArgs [planet0] dt t) satD [(1:ℝ)]).trail.length
          = satD.trail.length - [(1:ℝ)].length ∧
        (List.foldl (fun t dt => tickSat defaultArgs [planet0] dt t) satD [(1:ℝ)]).dead ∧
        (keepSat (List.foldl (fun t dt => tickSat defaultArgs [planet0] dt t) satD [(1:ℝ)]) ↔
          [(1:ℝ)].length < satD.trail.length)) :=
  ⟨trivial, eventual_removal defaultArgs [planet0] [(1:ℝ)] satD trivial⟩

/-- C9: the dead flag is monotone under a tick's per-satellite processing
(`tickSat`, which `update` maps over every satellite): the second loop ors
new conditions onto `dead` and can never reset it to alive. -/
theorem dead_monotone (args : Args) (planets : List Planet) (dt : ℝ)
    (s : Satellite) (h : s.dead) : (tickSat args planets dt s).dead :=
  tickSat_dead_of_dead args planets dt s h

/-- Witness for `dead_monotone` at the dead satellite `satD`. -/
theorem dead_monotone_witness : (tickSat defaultArgs [planet0] 1 satD).dead :=
  dead_monotone defaultArgs [planet0] 1 satD trivial

/-- C3 counterexample: it is NOT true that a body entirely outside the
viewport rectangle is marked dead by the next tick: `satX3` ends the tick at
`(804, 804)`, whose radius-5 body is fully outside the 800×800 rectangle
(diagonally past the corner) yet fails all four single-edge tests of
`outside`, so the tick leaves it alive. -/
theorem boundary_death_rect_cex :
    ¬ ∀ (args : Args) (planets : List Planet) (dt : ℝ) (s : Satellite),
        specBodyOutsideRect (moveSat args planets dt s).x (moveSat args planets dt s).y
            (moveSat args planets dt s).radius args.width args.height →
          (tickSat args planets dt s).dead := by
  intro hclaim
  have hx : (moveSat defaultArgs [planet0] 1 satX3).x = 804 := by
    rw [moveSat_x, integrate_satX3.1]
  have hy : (moveSat defaultArgs [planet0] 1 satX3).y = 804 := by
    rw [moveSat_y, integrate_satX3.2]
  have hr : (moveSat defaultArgs [planet0] 1 satX3).radius = 5 := by
    rw [moveSat_radius]; norm_num [satX3]
  have hrect : specBodyOutsideRect (moveSat defaultArgs [planet0] 1 satX3).x
      (moveSat defaultArgs [planet0] 1 satX3).y
      (moveSat defaultArgs [planet0] 1 satX3).radius
      defaultArgs.width defaultArgs.height := by
    rw [hx, hy, hr]
    intro px py hpx0 hpx8 hpy0 hpy8
    simp only [defaultArgs] at hpx8 hpy8
    have e1 : (4:ℝ) ≤ 804 - px := by linarith
    have e2 : (4:ℝ) ≤ 804 - py := by linarith
    have f1 : (4:ℝ) * 4 ≤ (804 - px) * (804 - px) :=
      mul_le_mul e1 e1 (by norm_num) (by linarith)
    have f2 : (4:ℝ) * 4 ≤ (804 - py) * (804 - py) :=
      mul_le_mul e2 e2 (by norm_num) (by linarith)
    norm_num
    linarith
  have hnd : ¬ (tickSat defaultArgs [planet0] 1 satX3).dead := by
    rw [tickSat, markDead_dead, hx, hy, hr]
    rintro (hdead | houts | ⟨p, hp, hcol⟩)
    · rw [moveSat_dead] at hdead
      exact hdead
    · norm_num [outside, defaultArgs] at houts
    · rw [List.mem_singleton] at hp
      subst hp
      have h30 : (30:ℝ) ≤ Real.sqrt ((804 - planet0.x) * (804 - planet0.x) +
          (804 - planet0.y) * (804 - planet0.y)) := by
        apply le_sqrt_of_sq_le 30 _ (by norm_num)
        norm_num [planet0]
      norm_num [planet0] at hcol h30
      linarith
  exact hnd (hclaim defaultArgs [planet0] 1 satX3 hrect)

/-- C3 amended: the boundary-death test the code applies is `outside`: a
satellite whose body at its post-integration position lies entirely beyond
ONE of the four viewport edges is marked dead by the same tick's second
loop.  (A body outside the rectangle only diagonally, past a corner, is
not.) -/
theorem boundary_death_edge (args : Args) (planets : List Planet) (dt : ℝ)
    (s : Satellite)
    (h : outside (moveSat args planets dt s).x (moveSat args planets dt s).y
      (moveSat args planets dt s).radius args.width args.height) :
    (tickSat args planets dt s).dead := by
  rw [tickSat, markDead_dead]
  exact Or.inr (Or.inl h)

/-- Witness for `boundary_death_edge`: `satB` ends the tick at
`(10100, 400)`, past the right edge, and is indeed marked dead. -/
theorem boundary_death_edge_witness :
    (tickSat defaultArgs [planet0] 1 satB).dead := by
  apply boundary_death_edge defaultArgs [planet0] 1 satB
  rw [moveSat_x, moveSat_y, moveSat_radius, integrate_satB.1, integrate_satB.2]
  norm_num [outside, satB, defaultArgs]

/-- C4: one `update` preserves the per-satellite trail bound
`trail.length ≤ trail_length` (push of at most one entry, eviction when the
bound is exceeded), and from a freshly initialised state any number of
updates keeps every present satellite within the bound. -/
theorem trail_bound :
    (∀ (app : App) (dt : ℝ) (draws : ℕ → ℝ),
        (∀ s ∈ app.satellites, s.trail.length ≤ app.args.trail_length) →
          ∀ s ∈ (update app dt draws).satellites,
            s.trail.length ≤ app.args.trail_length) ∧
      (∀ (planets : List Planet) (args : Args) (ticks : List (ℝ × (ℕ → ℝ))),
        ∀ s ∈ (runUpdates ⟨planets, [], args⟩ ticks).satellites,
          s.trail.length ≤ args.trail_length) := by
  refine ⟨update_preserves_trail_bound, fun planets args ticks s hs => ?_⟩
  have h := runUpdates_trail_bound ticks ⟨planets, [], args⟩
    (by intro s hs; simp at hs) s hs
  rwa [runUpdates_args] at h

/-- Witness for `trail_bound`: one update of the state holding `satA` keeps
its processed satellite within the bound of 100. -/
theorem trail_bound_witness :
    (tickSat defaultArgs [planet0] 1 satA).trail.length ≤ 100 := by
  have hmem : tickSat defaultArgs [planet0] 1 satA ∈
      (update app4 1 (fun _ => 1/2)).satellites := by
    rw [update_satellites_eq]
    simp only [app4]
    rw [if_neg (by norm_num [gen_range, defaultArgs])]
    refine (retainSats_mem _ _).mpr ⟨?_, ?_⟩
    · simp only [List.map_cons, List.map_nil]
      exact List.mem_singleton.mpr rfl
    · right
      rw [tickSat_trail_of_alive_under_cap defaultArgs [planet0] 1 satA (fun h => h)
        (by norm_num [satA, defaultArgs])]
      simp
  have h := trail_bound.1 app4 1 (fun _ => 1/2)
    (by
      intro s hs
      simp only [app4, List.mem_singleton] at hs
      subst hs
      norm_num [satA, app4, defaultArgs])
    (tickSat defaultArgs [planet0] 1 satA) hmem
  exact h

/-- C7 counterexample: it is NOT true that overlap with a planet before a
tick guarantees death at that tick: the distance is measured at the
post-integration position, and `satW7pre` starts 10 px from the planet
centre (inside collision distance 30) but is fast enough to end the tick at
`(700, 400)`, inside the window and clear of the planet, so it stays
alive. -/
theorem collision_death_pre_cex :
    ¬ ∀ (args : Args) (planets : List Planet) (dt : ℝ) (s : Satellite) (p : Planet),
        p ∈ planets →
          Real.sqrt ((s.x - p.x) * (s.x - p.x) + (s.y - p.y) * (s.y - p.y)) <
              s.radius + p.radius →
          (tickSat args planets dt s).dead := by
  intro hclaim
  have harg : (satW7pre.x - planet0.x) * (satW7pre.x - planet0.x) +
      (satW7pre.y - planet0.y) * (satW7pre.y - planet0.y) = 10 * 10 := by
    norm_num [satW7pre, planet0]
  have hpre : Real.sqrt ((satW7pre.x - planet0.x) * (satW7pre.x - planet0.x) +
      (satW7pre.y - planet0.y) * (satW7pre.y - planet0.y)) <
      satW7pre.radius + planet0.radius := by
    rw [harg, Real.sqrt_mul_self (by norm_num : (0:ℝ) ≤ 10)]
    norm_num [satW7pre, planet0]
  have hdead := hclaim defaultArgs [planet0] 1 satW7pre planet0
    (List.mem_singleton.mpr rfl) hpre
  have hx : (moveSat defaultArgs [planet0] 1 satW7pre).x = 700 := by
    rw [moveSat_x, integrate_satW7pre.1]
  have hy : (moveSat defaultArgs [planet0] 1 satW7pre).y = 400 := by
    rw [moveSat_y, integrate_satW7pre.2]
  have hr : (moveSat defaultArgs [planet0] 1 satW7pre).radius = 5 := by
    rw [moveSat_radius]; norm_num [satW7pre]
  rw [tickSat, markDead_dead, hx, hy, hr] at hdead
  rcases hdead with hdead | houts | ⟨p, hp, hcol⟩
  · rw [moveSat_dead] at hdead
    exact hdead
  · norm_num [outside, defaultArgs] at houts
  · rw [List.mem_singleton] at hp
    subst hp
    have h30 : (30:ℝ) ≤ Real.sqrt ((700 - planet0.x) * (700 - planet0.x) +
        (400 - planet0.y) * (400 - planet0.y)) := by
      apply le_sqrt_of_sq_le 30 _ (by norm_num)
      norm_num [planet0]
    norm_num [planet0] at hcol h30
    linarith

/-- C7 amended: collision death holds with the centre distance measured at
the satellite's post-integration position: if that distance to some planet
in the list is below the radius sum, the same tick's second loop marks the
satellite dead, regardless of its position relative to the viewport. -/
theorem collision_death_post (args : Args) (planets : List Planet) (dt : ℝ)
    (s : Satellite) (p : Planet) (hp : p ∈ planets)
    (h : Real.sqrt
        (((moveSat args planets dt s).x - p.x) * ((moveSat args planets dt s).x - p.x) +
          ((moveSat args planets dt s).y - p.y) * ((moveSat args planets dt s).y - p.y)) <
      (moveSat args planets dt s).radius + p.radius) :
    (tickSat args planets dt s).dead := by
  rw [tickSat, markDead_dead]
  exact Or.inr (Or.inr ⟨p, hp, h⟩)

/-- Witness for `collision_death_post`: `satW7` ends the tick at
`(386, 400)`, 14 px from the planet centre (< 30), and is marked dead. -/
theorem collision_death_post_witness :
    (tickSat defaultArgs [planet0] 1 satW7).dead := by
  apply collision_death_post defaultArgs [planet0] 1 satW7 planet0
    (List.mem_singleton.mpr rfl)
  rw [moveSat_x, moveSat_y, moveSat_radius, integrate_satW7.1, integrate_satW7.2]
  have harg : ((386:ℝ) - planet0.x) * (386 - planet0.x) +
      ((400:ℝ) - planet0.y) * (400 - planet0.y) = 14 * 14 := by
    norm_num [planet0]
  rw [harg, Real.sqrt_mul_self (by norm_num : (0:ℝ) ≤ 14)]
  norm_num [satW7, planet0]

/-- C8: each tick draws the spawn chance as exactly one `[0,1)` oracle
value; when it is below `add_chance` exactly one satellite — `spawnSat`,
alive, with empty trail, the configured radius, position in
`[0,width) × [0,height)` and speed `sat_velocity` decomposed along a heading
in `[0,2π)` — is appended before the tick's processing; otherwise none is
spawned. -/
theorem spawn_policy (app : App) (dt : ℝ) (draws : ℕ → ℝ)
    (hdraws : ∀ n, 0 ≤ draws n ∧ draws n < 1)
    (hw : 0 < app.args.width) (hh : 0 < app.args.height) :
    gen_range 0 1 (draws 0) = draws 0 ∧
      (gen_range 0 1 (draws 0) < app.args.add_chance →
        (update app dt draws).satellites =
          retainSats (List.map (tickSat app.args app.planets dt)
            (app.satellites ++ [spawnSat app.args draws]))) ∧
      (¬ gen_range 0 1 (draws 0) < app.args.add_chance →
        (update app dt draws).satellites =
          retainSats (List.map (tickSat app.args app.planets dt) app.satellites)) ∧
      ¬ (spawnSat app.args draws).dead ∧
      (spawnSat app.args draws).trail = [] ∧
      (spawnSat app.args draws).radius = app.args.sat_radius ∧
      0 ≤ (spawnSat app.args draws).x ∧ (spawnSat app.args draws).x < app.args.width ∧
      0 ≤ (spawnSat app.args draws).y ∧ (spawnSat app.args draws).y < app.args.height ∧
      0 ≤ gen_range 0 (2 * Real.pi) (draws 6) ∧
      gen_range 0 (2 * Real.pi) (draws 6) < 2 * Real.pi ∧
      (spawnSat app.args draws).v_x =
        app.args.sat_velocity * Real.cos (gen_range 0 (2 * Real.pi) (draws 6)) ∧
      (spawnSat app.args draws).v_y =
        app.args.sat_velocity * Real.sin (gen_range 0 (2 * Real.pi) (draws 6)) := by
  have hx : (spawnSat app.args draws).x = app.args.width * draws 4 := by
    simp [spawnSat, gen_range]
  have hy : (spawnSat app.args draws).y = app.args.height * draws 5 := by
    simp [spawnSat, gen_range]
  have hth : gen_range 0 (2 * Real.pi) (draws 6) = 2 * Real.pi * draws 6 := by
    simp [gen_range]
  refine ⟨by simp [gen_range], ?_, ?_, fun h => h, rfl, rfl, ?_, ?_, ?_, ?_, ?_, ?_,
    rfl, rfl⟩
  · intro hc
    rw [update_satellites_eq, if_pos hc]
  · intro hc
    rw [update_satellites_eq, if_neg hc]
  · rw [hx]
    exact mul_nonneg hw.le (hdraws 4).1
  · rw [hx]
    exact mul_lt_of_lt_one_right hw (hdraws 4).2
  · rw [hy]
    exact mul_nonneg hh.le (hdraws 5).1
  · rw [hy]
    exact mul_lt_of_lt_one_right hh (hdraws 5).2
  · rw [hth]
    exact mul_nonneg Real.two_pi_pos.le (hdraws 6).1
  · rw [hth]
    exact mul_lt_of_lt_one_right Real.two_pi_pos (hdraws 6).2

/-- Witness for `spawn_policy` at the fresh app and the all-zero oracle. -/
theorem spawn_policy_witness : gen_range 0 1 0 = 0 :=
  (spawn_policy app0 1 (fun _ => 0) (fun _ => ⟨le_refl 0, by norm_num⟩)
    (by norm_num [app0, defaultArgs]) (by norm_num [app0, defaultArgs])).1

/-- C10: a satellite spawned on a tick is processed by that same tick: the
update result is the retained processed old satellites plus the processed
newborn (last); the newborn's trail after its birth tick is exactly its
post-integration position when `trail_length ≥ 1`; its velocity is the one
produced by folding every planet's gravity (`integrateSat`); and its death
that very tick is decided by the boundary and collision tests at its
post-integration position — so it can die on the tick it was spawned. -/
theorem newborn_processed_same_tick (app : App) (dt : ℝ) (draws : ℕ → ℝ)
    (hc : gen_range 0 1 (draws 0) < app.args.add_chance)
    (hL : 1 ≤ app.args.trail_length) :
    (update app dt draws).satellites =
        retainSats (List.map (tickSat app.args app.planets dt) app.satellites ++
          [tickSat app.args app.planets dt (spawnSat app.args draws)]) ∧
      (tickSat app.args app.planets dt (spawnSat app.args draws)).trail =
        [((integrateSat app.args app.planets dt (spawnSat app.args draws)).x,
          (integrateSat app.args app.planets dt (spawnSat app.args draws)).y)] ∧
      (tickSat app.args app.planets dt (spawnSat app.args draws)).v_x =
        (integrateSat app.args app.planets dt (spawnSat app.args draws)).v_x ∧
      (tickSat app.args app.planets dt (spawnSat app.args draws)).v_y =
        (integrateSat app.args app.planets dt (spawnSat app.args draws)).v_y ∧
      ((tickSat app.args app.planets dt (spawnSat app.args draws)).dead ↔
        outside (moveSat app.args app.planets dt (spawnSat app.args draws)).x
            (moveSat app.args app.planets dt (spawnSat app.args draws)).y
            (moveSat app.args app.planets dt (spawnSat app.args draws)).radius
            app.args.width app.args.height ∨
          ∃ p ∈ app.planets,
            Real.sqrt
                (((moveSat app.args app.planets dt (spawnSat app.args draws)).x - p.x) *
                    ((moveSat app.args app.planets dt (spawnSat app.args draws)).x - p.x) +
                  ((moveSat app.args app.planets dt (spawnSat app.args draws)).y - p.y) *
                    ((moveSat app.args app.planets dt (spawnSat app.args draws)).y - p.y)) <
              (moveSat app.args app.planets dt (spawnSat app.args draws)).radius +
                p.radius) := by
  refine ⟨?_, ?_, ?_, ?_, ?_⟩
  · rw [update_satellites_eq, if_pos hc, List.map_append, List.map_cons, List.map_nil]
  · rw [tickSat_trail_of_alive_under_cap app.args app.planets dt (spawnSat app.args draws)
      (fun h => h) (by simp [spawnSat]; omega)]
    simp [spawnSat]
  · rw [tickSat, markDead_v_x, moveSat_v_x]
  · rw [tickSat, markDead_v_y, moveSat_v_y]
  · rw [tickSat, markDead_dead, moveSat_dead]
    simp [spawnSat]

/-- Witness for `newborn_processed_same_tick` at the fresh app and the
all-zero oracle (spawn chance 0 < 0.01). -/
theorem newborn_processed_same_tick_witness :
    (update app0 1 (fun _ => 0)).satellites =
      retainSats (List.map (tickSat app0.args app0.planets 1) app0.satellites ++
        [tickSat app0.args app0.planets 1 (spawnSat app0.args (fun _ => 0))]) :=
  (newborn_processed_same_tick app0 1 (fun _ => 0)
    (by norm_num [gen_range, app0, defaultArgs])
    (by norm_num [app0, defaultArgs])).1

end Orbits
